import Mathlib

/-!
Verification of the session/heartbeat tracking engine of the
timetracker extension (source: src/timetrackerV1/src/extension.ts).

The embedding models the module-level mutable globals (lines 5-13) as a
`State` record, the persisted JSON file as an `Option TrackingData`
(`none` = missing), and timestamps as integer milliseconds (the value of
`Date.getTime()`; ISO strings are in bijection with these).  JavaScript
`Math.floor(a / b)` on integer operands is `Int.fdiv`, and the JavaScript
remainder operator `%` (sign of the dividend) is `Int.tmod`.  Both
directions of file I/O are fallible and are modelled by Boolean
parameters: `readOk = false` models the caught read or parse failure of
`readHeartbeats` on an existing file (source lines 189-197), which makes
it return the empty list even when the file holds heartbeats, and
`writeOk = false` models the caught write failure (source lines 206-213),
which leaves the file unchanged.  Host-environment inputs (active editor,
document length, task list, debug flag, clock) are explicit parameters of
each operation.
-/

/-- A heartbeat record (interface `Heartbeat`, source lines 255-263). -/
structure Heartbeat where
  timestamp : Int
  filePath : String
  cursorLine : Nat
  cursorCharacter : Nat
  isTaskRunning : Bool
  isCompiling : Bool
  isDebugging : Bool
  keystrokeCount : Int
deriving DecidableEq, Repr

/-- The persisted document (interface `TrackingData`, source lines 265-271). -/
structure TrackingData where
  isOpen : Bool
  editTime : Option Int
  totalDuration : String
  keystrokeCount : Int
  heartbeats : List Heartbeat
deriving DecidableEq, Repr

/-- The module-level mutable globals (source lines 5-13) together with the
persisted file.  The three interval handles are modelled by Booleans
(running or not); `file = none` models a missing data file. -/
structure State where
  isOpen : Bool
  editTime : Option Int
  totalDuration : String
  previousCharCount : Nat
  keystrokeCount : Int
  updateInterval : Bool
  heartbeatInterval : Bool
  keystrokeInterval : Bool
  file : Option TrackingData
deriving DecidableEq, Repr

/-- Initial values of the globals (source lines 5-13), with no data file. -/
def initialState : State :=
  { isOpen := false, editTime := none, totalDuration := "00:00:00",
    previousCharCount := 0, keystrokeCount := 0,
    updateInterval := false, heartbeatInterval := false,
    keystrokeInterval := false, file := none }

/-- Active-editor information read from the host (source lines 55-59). -/
structure EditorInfo where
  filePath : String
  cursorLine : Nat
  cursorCharacter : Nat
deriving DecidableEq, Repr

/-- One entry of `vscode.tasks.fetchTasks()` (source lines 65-72): its name,
background flag, and whether `task.execution` is defined. -/
structure TaskInfo where
  name : String
  isBackground : Bool
  hasExecution : Bool
deriving DecidableEq, Repr

/-- JavaScript `String.prototype.padStart(2, c0)` where c0 is the zero
digit character (source line 173). -/
def padStart2 (s : String) : String :=
  if s.length < 2 then String.mk (List.replicate (2 - s.length) '0') ++ s else s

/-- JavaScript `Number.prototype.toString()` restricted to integers
(source line 173). -/
def jsIntToString (n : Int) : String :=
  if n < 0 then "-" ++ Nat.repr n.natAbs else Nat.repr n.toNat

/-- Prefix test on character lists; helper for `jsIncludes`. -/
def charsHasPre : List Char → List Char → Bool
  | [], _ => true
  | _ :: _, [] => false
  | a :: pat, b :: s => a == b && charsHasPre pat s

/-- Containment test on character lists; helper for `jsIncludes`. -/
def charsHasSub (pat : List Char) : List Char → Bool
  | [] => charsHasPre pat []
  | b :: s => charsHasPre pat (b :: s) || charsHasSub pat s

/-- JavaScript `String.prototype.includes` (substring test, source line 70). -/
def jsIncludes (s pat : String) : Bool := charsHasSub pat.data s.data

/-- The body of `calculateDuration` (source lines 164-174) after computing
the millisecond difference: hours, minutes, seconds by floor division and
JavaScript remainder, each rendered with `toString().padStart(2, c0)`. -/
def fmtDuration (duration : Int) : String :=
  padStart2 (jsIntToString (duration.fdiv (1000 * 60 * 60))) ++ ":" ++
    padStart2 (jsIntToString ((duration.tmod (1000 * 60 * 60)).fdiv (1000 * 60))) ++
    ":" ++ padStart2 (jsIntToString ((duration.tmod (1000 * 60)).fdiv 1000))

/-- `calculateDuration(startTime, endTime)` (source lines 164-174): computes
`end.getTime() - start.getTime()` and assigns the formatted string to the
global `totalDuration`.  The source mutates the global; here the mutation
is the returned state. -/
def calculateDuration (s : State) (startTime endTime : Int) : State :=
  { s with totalDuration := fmtDuration (endTime - startTime) }

/-- `getDataPath(context)` (source lines 179-182): joins the extension path
with the fixed file name. -/
def getDataPath (extensionPath : String) : String :=
  extensionPath ++ "/" ++ "vscode-timetracking-data.json"

/-- `readHeartbeats(context)` (source lines 187-199): returns the stored
heartbeat list.  A missing file yields the empty list with no error; on an
existing file, a read error or malformed JSON is caught by the try/catch
(modelled by `readOk = false`) and also yields the empty list, even though
the file still holds its heartbeats. -/
def readHeartbeats (readOk : Bool) (file : Option TrackingData) : List Heartbeat :=
  match file with
  | none => []
  | some d => if readOk then d.heartbeats else []

/-- `writeDataFile(dataPath, data)` (source lines 206-213): overwrites the
file on success; a write failure is caught and logged, leaving the file
as it was. -/
def writeDataFile (ok : Bool) (file : Option TrackingData) (d : TrackingData) :
    Option TrackingData :=
  if ok then some d else file

/-- `updateData(context)` (source lines 127-138): writes the full document
assembled from the current globals, with `heartbeats` re-read from the file. -/
def updateData (s : State) (readOk writeOk : Bool) : State :=
  let d : TrackingData :=
    { isOpen := s.isOpen, editTime := s.editTime,
      totalDuration := s.totalDuration, keystrokeCount := s.keystrokeCount,
      heartbeats := readHeartbeats readOk s.file }
  { s with file := writeDataFile writeOk s.file d }

/-- `updateDataWithHeartbeat(context, heartbeat)` (source lines 144-157):
like `updateData` but with the new heartbeat appended to the re-read list. -/
def updateDataWithHeartbeat (s : State) (hb : Heartbeat) (readOk writeOk : Bool) : State :=
  let d : TrackingData :=
    { isOpen := s.isOpen, editTime := s.editTime,
      totalDuration := s.totalDuration, keystrokeCount := s.keystrokeCount,
      heartbeats := readHeartbeats readOk s.file ++ [hb] }
  { s with file := writeDataFile writeOk s.file d }

/-- `startTrackingTime(context)` (source lines 18-30): when idle, opens the
session, stamps `editTime`, persists, and starts the three intervals;
otherwise only an informational message is shown. -/
def startTrackingTime (s : State) (now : Int) (readOk writeOk : Bool) : State :=
  if !s.isOpen then
    let s := { s with isOpen := true, editTime := some now }
    let s := updateData s readOk writeOk
    { s with updateInterval := true, heartbeatInterval := true,
             keystrokeInterval := true }
  else s

/-- `stopTrackingTime(context)` (source lines 35-48): when tracking, closes
the session, recomputes `totalDuration` up to the stop instant, persists,
and clears the three intervals; otherwise only a message is shown.
The non-null assertion `editTime!` is modelled by `Option.getD 0`. -/
def stopTrackingTime (s : State) (now : Int) (readOk writeOk : Bool) : State :=
  if s.isOpen then
    let s := { s with isOpen := false }
    let s := calculateDuration s (s.editTime.getD 0) now
    let s := updateData s readOk writeOk
    { s with updateInterval := false, heartbeatInterval := false,
             keystrokeInterval := false }
  else s

/-- `updateTotalDuration(context)` (source lines 100-106): while tracking,
recompute `totalDuration` from `editTime` to the current clock value and
persist; otherwise do nothing. -/
def updateTotalDuration (s : State) (now : Int) (readOk writeOk : Bool) : State :=
  if s.isOpen then
    updateData (calculateDuration s (s.editTime.getD 0) now) readOk writeOk
  else s

/-- `trackKeystrokes(context)` (source lines 111-122): when an editor is
active (its document length given as `docLength`), add the net length
delta (possibly negative) to `keystrokeCount`, move the previous-length
anchor, and persist. -/
def trackKeystrokes (s : State) (docLength : Option Nat) (readOk writeOk : Bool) : State :=
  match docLength with
  | none => s
  | some currentCharCount =>
    let charsTyped : Int := (currentCharCount : Int) - (s.previousCharCount : Int)
    let s := { s with previousCharCount := currentCharCount,
                      keystrokeCount := s.keystrokeCount + charsTyped }
    updateData s readOk writeOk

/-- `sendHeartbeat(context)` (source lines 54-94): when an editor is active,
build a heartbeat from the host signals and append it via
`updateDataWithHeartbeat`.  There is no check of `isOpen` and no
comparison of the active file path against the data file path. -/
def sendHeartbeat (s : State) (editor : Option EditorInfo) (timestamp : Int)
    (tasks : List TaskInfo) (debugActive : Bool) (readOk writeOk : Bool) : State :=
  match editor with
  | none => s
  | some e =>
    let isTaskRunning := tasks.any fun t => t.isBackground || t.hasExecution
    let isCompiling := tasks.any fun t =>
      jsIncludes t.name.toLower "compile" || jsIncludes t.name.toLower "build"
    let isDebugging := debugActive
    let hb : Heartbeat :=
      { timestamp := timestamp, filePath := e.filePath,
        cursorLine := e.cursorLine, cursorCharacter := e.cursorCharacter,
        isTaskRunning := isTaskRunning, isCompiling := isCompiling,
        isDebugging := isDebugging, keystrokeCount := s.keystrokeCount }
    updateDataWithHeartbeat s hb readOk writeOk

/-- `deactivate(context)` (source lines 248-253): clear the three intervals
and persist a final snapshot. -/
def deactivate (s : State) (readOk writeOk : Bool) : State :=
  updateData { s with updateInterval := false, heartbeatInterval := false,
                      keystrokeInterval := false } readOk writeOk

/-- One firing of a command or of a periodic tick, with the host inputs it
reads (clock value, editor, tasks, debug flag, document length) and the
outcomes of its file read and file write. -/
inductive Step where
  | start (now : Int) (readOk writeOk : Bool)
  | stop (now : Int) (readOk writeOk : Bool)
  | durationTick (now : Int) (readOk writeOk : Bool)
  | heartbeatTick (editor : Option EditorInfo) (timestamp : Int)
      (tasks : List TaskInfo) (debugActive : Bool) (readOk writeOk : Bool)
  | keystrokeTick (docLength : Option Nat) (readOk writeOk : Bool)
  | deactivate (readOk writeOk : Bool)
deriving DecidableEq, Repr

/-- Interpret one step as the corresponding source operation. -/
def applyStep (s : State) : Step → State
  | .start now rOk wOk => startTrackingTime s now rOk wOk
  | .stop now rOk wOk => stopTrackingTime s now rOk wOk
  | .durationTick now rOk wOk => updateTotalDuration s now rOk wOk
  | .heartbeatTick editor ts tasks dbg rOk wOk =>
      sendHeartbeat s editor ts tasks dbg rOk wOk
  | .keystrokeTick docLength rOk wOk => trackKeystrokes s docLength rOk wOk
  | .deactivate rOk wOk => deactivate s rOk wOk

/-- Run a sequence of steps from a state. -/
def runSteps (s : State) (steps : List Step) : State :=
  steps.foldl applyStep s

/-- Whether the file read performed by a step succeeds. -/
def stepReadOk : Step → Bool
  | .start _ rOk _ => rOk
  | .stop _ rOk _ => rOk
  | .durationTick _ rOk _ => rOk
  | .heartbeatTick _ _ _ _ rOk _ => rOk
  | .keystrokeTick _ rOk _ => rOk
  | .deactivate rOk _ => rOk

/-- The heartbeat list actually held by the persisted file. -/
def storedHeartbeats (s : State) : List Heartbeat :=
  match s.file with
  | none => []
  | some d => d.heartbeats

/-- The in-memory session fields, as opposed to the persisted file. -/
def memView (s : State) : Bool × Option Int × String × Int × Nat :=
  (s.isOpen, s.editTime, s.totalDuration, s.keystrokeCount, s.previousCharCount)

/-- Duration formatting as the spec words it (section 8): floor arithmetic on
the millisecond difference, zero-padded HH:MM:SS, hours unbounded.  This is
the spec-side definition used to compare the code against the claim. -/
def specDurationString (ms : Nat) : String :=
  padStart2 (Nat.repr (ms / 3600000)) ++ ":" ++
    padStart2 (Nat.repr (ms / 60000 % 60)) ++ ":" ++
    padStart2 (Nat.repr (ms / 1000 % 60))

/-- Whether a step is a successful heartbeat sample: a heartbeat tick with an
active editor whose file write succeeds. -/
def appendsHeartbeat : Step → Bool
  | .heartbeatTick editor _ _ _ _ wOk => editor.isSome && wOk
  | _ => false

/-! Helper lemmas about the embedding. -/

/-- Casting Nat floor division into Int fdiv. -/
lemma fdiv_natCast (m k : Nat) : Int.fdiv (m : Int) (k : Int) = ((m / k : Nat) : Int) :=
  (Int.ofNat_fdiv m k).symm

/-- Casting Nat mod into Int tmod. -/
lemma tmod_natCast (m k : Nat) : Int.tmod (m : Int) (k : Int) = ((m % k : Nat) : Int) := rfl

/-- On a natural number, jsIntToString is decimal representation. -/
lemma jsIntToString_natCast (n : Nat) : jsIntToString (n : Int) = Nat.repr n := by
  unfold jsIntToString
  rw [if_neg (by omega : ¬ ((n : Int) < 0)), Int.toNat_natCast]

/-- For non-negative differences, the code formatting agrees with the
spec-side formula. -/
lemma fmtDuration_natCast (n : Nat) : fmtDuration (n : Int) = specDurationString n := by
  unfold fmtDuration specDurationString
  have h1 : ((1000 * 60 * 60 : Int)) = ((3600000 : Nat) : Int) := by norm_num
  have h2 : ((1000 * 60 : Int)) = ((60000 : Nat) : Int) := by norm_num
  have h3 : ((1000 : Int)) = ((1000 : Nat) : Int) := by norm_num
  rw [h1, h2, h3, fdiv_natCast, tmod_natCast, tmod_natCast, fdiv_natCast, fdiv_natCast,
    jsIntToString_natCast, jsIntToString_natCast, jsIntToString_natCast]
  have e1 : n % 3600000 / 60000 = n / 60000 % 60 := by
    have h := Nat.mod_mul_right_div_self n 60000 60
    norm_num at h
    exact h
  have e2 : n % 60000 / 1000 = n / 1000 % 60 := by
    have h := Nat.mod_mul_right_div_self n 1000 60
    norm_num at h
    exact h
  rw [e1, e2]

/-- `stopTrackingTime` always leaves the session closed. -/
lemma stopTrackingTime_isOpen (s : State) (now : Int) (rOk wOk : Bool) :
    (stopTrackingTime s now rOk wOk).isOpen = false := by
  by_cases ho : s.isOpen <;>
    simp [stopTrackingTime, updateData, calculateDuration, ho]

/-- `stopTrackingTime` on an idle session is the identity. -/
lemma stopTrackingTime_idle (s : State) (now : Int) (rOk wOk : Bool)
    (h : s.isOpen = false) :
    stopTrackingTime s now rOk wOk = s := by
  simp [stopTrackingTime, h]

/-- `updateTotalDuration` never changes `isOpen` or `editTime`. -/
lemma updateTotalDuration_fields (s : State) (now : Int) (rOk wOk : Bool) :
    (updateTotalDuration s now rOk wOk).isOpen = s.isOpen ∧
    (updateTotalDuration s now rOk wOk).editTime = s.editTime := by
  by_cases ho : s.isOpen <;>
    simp [updateTotalDuration, updateData, calculateDuration, ho]

/-- While tracking, a duration tick replaces `totalDuration` with the
formatted difference between the clock and the session start. -/
lemma updateTotalDuration_open (s : State) (now t : Int) (rOk wOk : Bool)
    (hOpen : s.isOpen = true) (hStart : s.editTime = some t) :
    (updateTotalDuration s now rOk wOk).totalDuration = fmtDuration (now - t) := by
  simp [updateTotalDuration, updateData, calculateDuration, hOpen, hStart]

/-- With a successful read, `updateData` never changes the stored heartbeat
list (while a failed read on an existing file followed by a successful
write would erase it). -/
lemma storedHeartbeats_updateData (s : State) (wOk : Bool) :
    storedHeartbeats (updateData s true wOk) = storedHeartbeats s := by
  cases wOk <;> cases hf : s.file <;>
    simp [updateData, writeDataFile, storedHeartbeats, readHeartbeats, hf]

/-- With a successful read, `updateDataWithHeartbeat` appends exactly the
new heartbeat on a successful write and leaves the file unchanged on a
failed one. -/
lemma storedHeartbeats_updateDataWithHeartbeat (s : State) (hb : Heartbeat) (wOk : Bool) :
    storedHeartbeats (updateDataWithHeartbeat s hb true wOk) =
      if wOk then storedHeartbeats s ++ [hb] else storedHeartbeats s := by
  cases wOk <;> cases hf : s.file <;>
    simp [updateDataWithHeartbeat, writeDataFile, storedHeartbeats, readHeartbeats, hf]

/-- With a successful read, `startTrackingTime` never changes the stored
heartbeat list. -/
lemma storedHeartbeats_start (s : State) (now : Int) (wOk : Bool) :
    storedHeartbeats (startTrackingTime s now true wOk) = storedHeartbeats s := by
  by_cases ho : s.isOpen <;> cases wOk <;> cases hf : s.file <;>
    simp [startTrackingTime, updateData, writeDataFile, storedHeartbeats,
      readHeartbeats, ho, hf]

/-- With a successful read, `stopTrackingTime` never changes the stored
heartbeat list. -/
lemma storedHeartbeats_stop (s : State) (now : Int) (wOk : Bool) :
    storedHeartbeats (stopTrackingTime s now true wOk) = storedHeartbeats s := by
  by_cases ho : s.isOpen <;> cases wOk <;> cases hf : s.file <;>
    simp [stopTrackingTime, calculateDuration, updateData, writeDataFile,
      storedHeartbeats, readHeartbeats, ho, hf]

/-- With a successful read, a duration tick never changes the stored
heartbeat list. -/
lemma storedHeartbeats_durationTick (s : State) (now : Int) (wOk : Bool) :
    storedHeartbeats (updateTotalDuration s now true wOk) = storedHeartbeats s := by
  by_cases ho : s.isOpen <;> cases wOk <;> cases hf : s.file <;>
    simp [updateTotalDuration, calculateDuration, updateData, writeDataFile,
      storedHeartbeats, readHeartbeats, ho, hf]

/-- With a successful read, a keystroke tick never changes the stored
heartbeat list. -/
lemma storedHeartbeats_keystrokeTick (s : State) (docLength : Option Nat) (wOk : Bool) :
    storedHeartbeats (trackKeystrokes s docLength true wOk) = storedHeartbeats s := by
  cases docLength <;> cases wOk <;> cases hf : s.file <;>
    simp [trackKeystrokes, updateData, writeDataFile, storedHeartbeats,
      readHeartbeats, hf]

/-- With a successful read, `deactivate` never changes the stored heartbeat
list. -/
lemma storedHeartbeats_deactivate (s : State) (wOk : Bool) :
    storedHeartbeats (deactivate s true wOk) = storedHeartbeats s := by
  cases wOk <;> cases hf : s.file <;>
    simp [deactivate, updateData, writeDataFile, storedHeartbeats, readHeartbeats, hf]

/-- Every step whose file read succeeds extends the stored heartbeat list on
the right, by one entry exactly when it is a successful heartbeat sample. -/
lemma storedHeartbeats_applyStep (s : State) (st : Step) (h : stepReadOk st = true) :
    ∃ l : List Heartbeat,
      storedHeartbeats (applyStep s st) = storedHeartbeats s ++ l ∧
      l.length = (if appendsHeartbeat st then 1 else 0) := by
  cases st with
  | start now rOk wOk =>
    simp [stepReadOk] at h
    subst h
    exact ⟨[], by simp [applyStep, storedHeartbeats_start, appendsHeartbeat]⟩
  | stop now rOk wOk =>
    simp [stepReadOk] at h
    subst h
    exact ⟨[], by simp [applyStep, storedHeartbeats_stop, appendsHeartbeat]⟩
  | durationTick now rOk wOk =>
    simp [stepReadOk] at h
    subst h
    exact ⟨[], by simp [applyStep, storedHeartbeats_durationTick, appendsHeartbeat]⟩
  | keystrokeTick docLength rOk wOk =>
    simp [stepReadOk] at h
    subst h
    exact ⟨[], by simp [applyStep, storedHeartbeats_keystrokeTick, appendsHeartbeat]⟩
  | deactivate rOk wOk =>
    simp [stepReadOk] at h
    subst h
    exact ⟨[], by simp [applyStep, storedHeartbeats_deactivate, appendsHeartbeat]⟩
  | heartbeatTick editor ts tasks dbg rOk wOk =>
    simp [stepReadOk] at h
    subst h
    cases editor with
    | none => exact ⟨[], by simp [applyStep, sendHeartbeat, appendsHeartbeat]⟩
    | some e =>
      cases wOk with
      | false =>
        refine ⟨[], ?_, by simp [appendsHeartbeat]⟩
        simp [applyStep, sendHeartbeat, storedHeartbeats_updateDataWithHeartbeat]
      | true =>
        refine ⟨[Heartbeat.mk ts e.filePath e.cursorLine e.cursorCharacter
          (tasks.any (fun t => t.isBackground || t.hasExecution))
          (tasks.any (fun t =>
            jsIncludes t.name.toLower "compile" || jsIncludes t.name.toLower "build"))
          dbg s.keystrokeCount], ?_, by simp [appendsHeartbeat]⟩
        simp [applyStep, sendHeartbeat, storedHeartbeats_updateDataWithHeartbeat]

/-- Unfolding one step of `runSteps`. -/
lemma runSteps_cons (s : State) (st : Step) (rest : List Step) :
    runSteps s (st :: rest) = runSteps (applyStep s st) rest := rfl

/-- One step preserves the invariant that the keystroke counter equals the
previous-length anchor. -/
lemma keystroke_inv_applyStep (s : State) (st : Step)
    (h : s.keystrokeCount = (s.previousCharCount : Int)) :
    (applyStep s st).keystrokeCount = ((applyStep s st).previousCharCount : Int) := by
  cases st with
  | start now rOk wOk =>
    by_cases ho : s.isOpen <;>
      simp [applyStep, startTrackingTime, updateData, ho, h]
  | stop now rOk wOk =>
    by_cases ho : s.isOpen <;>
      simp [applyStep, stopTrackingTime, calculateDuration, updateData, ho, h]
  | durationTick now rOk wOk =>
    by_cases ho : s.isOpen <;>
      simp [applyStep, updateTotalDuration, calculateDuration, updateData, ho, h]
  | heartbeatTick editor ts tasks dbg rOk wOk =>
    cases editor <;>
      simp [applyStep, sendHeartbeat, updateDataWithHeartbeat, h]
  | keystrokeTick docLength rOk wOk =>
    cases docLength with
    | none => simpa [applyStep, trackKeystrokes] using h
    | some c =>
      simp [applyStep, trackKeystrokes, updateData, h]
  | deactivate rOk wOk =>
    simp [applyStep, deactivate, updateData, h]

/-- The keystroke counter equals the previous-length anchor after any run. -/
lemma keystroke_inv_runSteps (s : State) (steps : List Step)
    (h : s.keystrokeCount = (s.previousCharCount : Int)) :
    (runSteps s steps).keystrokeCount = ((runSteps s steps).previousCharCount : Int) := by
  induction steps generalizing s with
  | nil => simpa [runSteps] using h
  | cons st rest ih =>
    rw [runSteps_cons]
    exact ih (applyStep s st) (keystroke_inv_applyStep s st h)

/-- Starting from an idle session opens it and stamps the start instant. -/
lemma startTrackingTime_idle_fields (s : State) (now : Int) (rOk wOk : Bool)
    (h : s.isOpen = false) :
    (startTrackingTime s now rOk wOk).isOpen = true ∧
    (startTrackingTime s now rOk wOk).editTime = some now := by
  simp [startTrackingTime, updateData, h]

/-- Claim C1: while the session is Tracking, every duration tick recomputes
`totalDuration` from the original session start `editTime` to the current
clock value, as a full replacement rather than an accumulation of deltas;
starting a session and firing three duration ticks with the clock advanced
10 seconds per tick yields `totalDuration = "00:00:30"`, and a subsequent
stop leaves `isOpen = false`. -/
theorem duration_tick_recomputes_from_start (s0 : State) (t now tEnd : Int)
    (rS okS r1 ok1 r2 ok2 r3 ok3 r4 ok4 rStop okStop : Bool)
    (hIdle : s0.isOpen = false) :
    (updateTotalDuration (startTrackingTime s0 t rS okS) now r1 ok1).totalDuration =
      fmtDuration (now - t) ∧
    (runSteps (startTrackingTime s0 t rS okS)
        [Step.durationTick (t + 10000) r2 ok2, Step.durationTick (t + 20000) r3 ok3,
          Step.durationTick (t + 30000) r4 ok4]).totalDuration = "00:00:30" ∧
    (stopTrackingTime (runSteps (startTrackingTime s0 t rS okS)
        [Step.durationTick (t + 10000) r2 ok2, Step.durationTick (t + 20000) r3 ok3,
          Step.durationTick (t + 30000) r4 ok4]) tEnd rStop okStop).isOpen = false := by
  obtain ⟨hOpen, hStart⟩ := startTrackingTime_idle_fields s0 t rS okS hIdle
  refine ⟨updateTotalDuration_open _ now t r1 ok1 hOpen hStart, ?_,
    stopTrackingTime_isOpen _ _ _ _⟩
  have hrun : runSteps (startTrackingTime s0 t rS okS)
      [Step.durationTick (t + 10000) r2 ok2, Step.durationTick (t + 20000) r3 ok3,
        Step.durationTick (t + 30000) r4 ok4] =
      updateTotalDuration (updateTotalDuration (updateTotalDuration
        (startTrackingTime s0 t rS okS) (t + 10000) r2 ok2) (t + 20000) r3 ok3)
        (t + 30000) r4 ok4 := rfl
  rw [hrun]
  have h1 := updateTotalDuration_fields (startTrackingTime s0 t rS okS)
    (t + 10000) r2 ok2
  have h2 := updateTotalDuration_fields
    (updateTotalDuration (startTrackingTime s0 t rS okS) (t + 10000) r2 ok2)
    (t + 20000) r3 ok3
  have hOpen2 : (updateTotalDuration (updateTotalDuration (startTrackingTime s0 t rS okS)
      (t + 10000) r2 ok2) (t + 20000) r3 ok3).isOpen = true := by
    rw [h2.1, h1.1, hOpen]
  have hStart2 : (updateTotalDuration (updateTotalDuration (startTrackingTime s0 t rS okS)
      (t + 10000) r2 ok2) (t + 20000) r3 ok3).editTime = some t := by
    rw [h2.2, h1.2, hStart]
  rw [updateTotalDuration_open _ (t + 30000) t r4 ok4 hOpen2 hStart2]
  have he : t + 30000 - t = (30000 : Int) := by omega
  rw [he]
  decide

/-- Witness for C1 at the concrete start instant 2024-01-01T00:00:00Z
(1704067200000 ms). -/
theorem duration_tick_recomputes_from_start_witness :
    initialState.isOpen = false ∧
    ((updateTotalDuration (startTrackingTime initialState 1704067200000 true true)
        1704067215000 true true).totalDuration =
        fmtDuration (1704067215000 - 1704067200000) ∧
      (runSteps (startTrackingTime initialState 1704067200000 true true)
          [Step.durationTick (1704067200000 + 10000) true true,
            Step.durationTick (1704067200000 + 20000) true true,
            Step.durationTick (1704067200000 + 30000) true true]).totalDuration =
        "00:00:30" ∧
      (stopTrackingTime (runSteps (startTrackingTime initialState 1704067200000 true true)
          [Step.durationTick (1704067200000 + 10000) true true,
            Step.durationTick (1704067200000 + 20000) true true,
            Step.durationTick (1704067200000 + 30000) true true])
          1704067230000 true true).isOpen = false) :=
  ⟨rfl, duration_tick_recomputes_from_start initialState 1704067200000 1704067215000
    1704067230000 true true true true true true true true true true true true rfl⟩

/-- Claim C2: for end at or after start, `calculateDuration` produces the
string obtained by floor arithmetic on the millisecond difference,
zero-padded HH:MM:SS with unbounded hours; a difference of 3661000 ms
yields "01:01:01". -/
theorem calculateDuration_floor_spec (s : State) (a b : Int) (h : a ≤ b) :
    (calculateDuration s a b).totalDuration = specDurationString (b - a).toNat ∧
    (calculateDuration s a (a + 3661000)).totalDuration = "01:01:01" := by
  constructor
  · show fmtDuration (b - a) = specDurationString (b - a).toNat
    obtain ⟨n, hn⟩ : ∃ n : Nat, b - a = (n : Int) := ⟨(b - a).toNat, by omega⟩
    rw [hn, Int.toNat_natCast]
    exact fmtDuration_natCast n
  · show fmtDuration (a + 3661000 - a) = "01:01:01"
    have he : a + 3661000 - a = (3661000 : Int) := by omega
    rw [he]
    decide

/-- Witness for C2 at start 0 and end 3661000. -/
theorem calculateDuration_floor_spec_witness :
    (0 : Int) ≤ 3661000 ∧
    ((calculateDuration initialState 0 3661000).totalDuration =
        specDurationString ((3661000 : Int) - 0).toNat ∧
      (calculateDuration initialState 0 (0 + 3661000)).totalDuration = "01:01:01") :=
  ⟨by decide, calculateDuration_floor_spec initialState 0 3661000 (by decide)⟩

/-- Claim C3 counterexample: a heartbeat can be removed by an operation: on
a file holding one heartbeat, a keystroke tick whose file read fails (the
caught error path of `readHeartbeats`, source lines 189-197) but whose
write succeeds persists an empty heartbeat list, erasing the entry. -/
theorem failed_read_erases_heartbeats :
    (storedHeartbeats { initialState with file := some (TrackingData.mk false none
        "00:00:00" 0 [Heartbeat.mk 0 "a.ts" 0 0 false false false 0]) }).length = 1 ∧
    (storedHeartbeats (trackKeystrokes
        { initialState with file := some (TrackingData.mk false none
            "00:00:00" 0 [Heartbeat.mk 0 "a.ts" 0 0 false false false 0]) }
        (some 0) false true)).length = 0 := by
  constructor <;> rfl

/-- Claim C3 (amended): provided every file read succeeds, the heartbeat log
is append-only: over any sequence of operations the previously stored
heartbeats remain an unchanged prefix, and the length grows by exactly the
number of successful heartbeat samples.  (A failed read on an existing
file followed by a successful write erases prior heartbeats, the reset
behaviour the spec documents in section 7.) -/
theorem heartbeat_log_append_only (s : State) (steps : List Step)
    (hread : steps.all stepReadOk = true) :
    storedHeartbeats s <+: storedHeartbeats (runSteps s steps) ∧
    (storedHeartbeats (runSteps s steps)).length =
      (storedHeartbeats s).length + (steps.filter appendsHeartbeat).length := by
  induction steps generalizing s with
  | nil => simp [runSteps]
  | cons st rest ih =>
    rw [List.all_cons, Bool.and_eq_true] at hread
    obtain ⟨l, hl, hlen⟩ := storedHeartbeats_applyStep s st hread.1
    obtain ⟨ihp, ihl⟩ := ih (applyStep s st) hread.2
    rw [runSteps_cons]
    constructor
    · have h1 : storedHeartbeats s <+: storedHeartbeats (applyStep s st) := by
        rw [hl]; exact List.prefix_append _ _
      exact h1.trans ihp
    · rw [ihl, hl, List.length_append, List.filter_cons]
      cases happ : appendsHeartbeat st
      · rw [happ] at hlen
        simp at hlen
        simp [hlen]
      · rw [happ] at hlen
        simp at hlen
        simp [hlen]
        omega

/-- Witness for the amended C3 on a concrete run whose reads all succeed:
two heartbeat ticks, one with an editor and one without, around a
duration tick. -/
theorem heartbeat_log_append_only_witness :
    ([Step.heartbeatTick (some (EditorInfo.mk "a.ts" 1 2)) 7 [] false true true,
        Step.durationTick 9 true true,
        Step.heartbeatTick none 11 [] false true true] : List Step).all
      stepReadOk = true ∧
    (storedHeartbeats initialState <+: storedHeartbeats (runSteps initialState
        [Step.heartbeatTick (some (EditorInfo.mk "a.ts" 1 2)) 7 [] false true true,
          Step.durationTick 9 true true,
          Step.heartbeatTick none 11 [] false true true]) ∧
      (storedHeartbeats (runSteps initialState
          [Step.heartbeatTick (some (EditorInfo.mk "a.ts" 1 2)) 7 [] false true true,
            Step.durationTick 9 true true,
            Step.heartbeatTick none 11 [] false true true])).length =
        (storedHeartbeats initialState).length +
          (([Step.heartbeatTick (some (EditorInfo.mk "a.ts" 1 2)) 7 [] false true true,
              Step.durationTick 9 true true,
              Step.heartbeatTick none 11 [] false true true] : List Step).filter
            appendsHeartbeat).length) :=
  ⟨rfl, heartbeat_log_append_only initialState
    [Step.heartbeatTick (some (EditorInfo.mk "a.ts" 1 2)) 7 [] false true true,
      Step.durationTick 9 true true,
      Step.heartbeatTick none 11 [] false true true] rfl⟩

/-- Claim C4: `stop()` is idempotent: from a tracking state the transition
happens exactly once, and the second call changes nothing at all (no
session fields, no `totalDuration`, no heartbeats). -/
theorem stop_idempotent (s : State) (t1 t2 : Int) (r1 ok1 r2 ok2 : Bool)
    (h : s.isOpen = true) :
    (stopTrackingTime s t1 r1 ok1).isOpen = false ∧
    stopTrackingTime (stopTrackingTime s t1 r1 ok1) t2 r2 ok2 =
      stopTrackingTime s t1 r1 ok1 :=
  ⟨stopTrackingTime_isOpen s t1 r1 ok1,
    stopTrackingTime_idle _ t2 r2 ok2 (stopTrackingTime_isOpen s t1 r1 ok1)⟩

/-- Witness for C4 on a concrete tracking state. -/
theorem stop_idempotent_witness :
    ({ initialState with isOpen := true, editTime := some 0 } : State).isOpen = true ∧
    ((stopTrackingTime { initialState with isOpen := true, editTime := some 0 }
        5000 true true).isOpen = false ∧
      stopTrackingTime (stopTrackingTime
          { initialState with isOpen := true, editTime := some 0 } 5000 true true)
          9000 false false =
        stopTrackingTime { initialState with isOpen := true, editTime := some 0 }
          5000 true true) :=
  ⟨rfl, stop_idempotent { initialState with isOpen := true, editTime := some 0 }
    5000 9000 true true false false rfl⟩

/-- Claim C5 counterexample: in the code as written a sample whose active
file path equals the data file path still appends a heartbeat: from a
state with no stored heartbeats, one heartbeat is stored afterwards. -/
theorem self_exclusion_missing :
    (storedHeartbeats initialState).length = 0 ∧
    (storedHeartbeats (sendHeartbeat initialState
        (some (EditorInfo.mk (getDataPath "/ext") 0 0)) 0 [] false true true)).length =
      1 := by
  constructor <;> rfl

/-- Claim C5 (amended): `sendHeartbeat` performs no self-exclusion: a sample
whose active file path equals the data file path is handled like any other
and appends exactly one heartbeat to the persisted log. -/
theorem self_exclusion_amended (s : State) (ctx : String) (e : EditorInfo)
    (ts : Int) (tasks : List TaskInfo) (dbg : Bool)
    (h : e.filePath = getDataPath ctx) :
    (storedHeartbeats (sendHeartbeat s (some e) ts tasks dbg true true)).length =
      (storedHeartbeats s).length + 1 := by
  simp [sendHeartbeat, storedHeartbeats_updateDataWithHeartbeat]

/-- Witness for the amended C5 with the active file equal to the data file. -/
theorem self_exclusion_amended_witness :
    (EditorInfo.mk (getDataPath "/ext") 0 0).filePath = getDataPath "/ext" ∧
    (storedHeartbeats (sendHeartbeat initialState
        (some (EditorInfo.mk (getDataPath "/ext") 0 0)) 0 [] false true true)).length =
      (storedHeartbeats initialState).length + 1 :=
  ⟨rfl, self_exclusion_amended initialState "/ext"
    (EditorInfo.mk (getDataPath "/ext") 0 0) 0 [] false rfl⟩

/-- Claim C6 counterexample: a keystroke tick can decrease the counter:
after a tick seeing document length 100 the counter is 100, and the next
tick seeing length 90 drops it to 90, inside a started session. -/
theorem keystroke_monotonic_fails :
    (runSteps initialState
        [Step.start 0 true true,
          Step.keystrokeTick (some 100) true true]).keystrokeCount = 100 ∧
    (runSteps initialState
        [Step.start 0 true true, Step.keystrokeTick (some 100) true true,
          Step.keystrokeTick (some 90) true true]).keystrokeCount = 90 := by
  constructor <;> rfl

/-- Claim C6 (amended): starting from the initial anchor relation (which the
initial globals satisfy), `keystrokeCount` stays a non-negative integer
after any run, and neither `start()` nor `stop()` ever resets it; it is
not monotone, since a negative length delta decreases it. -/
theorem keystroke_count_amended (s : State) (steps : List Step) (now : Int)
    (rOk wOk : Bool) (h : s.keystrokeCount = (s.previousCharCount : Int)) :
    0 ≤ (runSteps s steps).keystrokeCount ∧
    (startTrackingTime (runSteps s steps) now rOk wOk).keystrokeCount =
      (runSteps s steps).keystrokeCount ∧
    (stopTrackingTime (runSteps s steps) now rOk wOk).keystrokeCount =
      (runSteps s steps).keystrokeCount := by
  have hinv := keystroke_inv_runSteps s steps h
  refine ⟨by rw [hinv]; omega, ?_, ?_⟩
  · by_cases ho : (runSteps s steps).isOpen <;>
      simp [startTrackingTime, updateData, ho]
  · by_cases ho : (runSteps s steps).isOpen <;>
      simp [stopTrackingTime, calculateDuration, updateData, ho]

/-- Witness for the amended C6 on a concrete run with a negative delta. -/
theorem keystroke_count_amended_witness :
    initialState.keystrokeCount = (initialState.previousCharCount : Int) ∧
    (0 ≤ (runSteps initialState [Step.keystrokeTick (some 100) true true,
        Step.keystrokeTick (some 90) true true]).keystrokeCount ∧
      (startTrackingTime (runSteps initialState
          [Step.keystrokeTick (some 100) true true,
            Step.keystrokeTick (some 90) true true]) 0 true true).keystrokeCount =
        (runSteps initialState [Step.keystrokeTick (some 100) true true,
          Step.keystrokeTick (some 90) true true]).keystrokeCount ∧
      (stopTrackingTime (runSteps initialState
          [Step.keystrokeTick (some 100) true true,
            Step.keystrokeTick (some 90) true true]) 0 true true).keystrokeCount =
        (runSteps initialState [Step.keystrokeTick (some 100) true true,
          Step.keystrokeTick (some 90) true true]).keystrokeCount) :=
  ⟨rfl, keystroke_count_amended initialState
    [Step.keystrokeTick (some 100) true true, Step.keystrokeTick (some 90) true true]
    0 true true rfl⟩

/-- Claim C7: each keystroke tick adds the net length delta (current length
minus the previous recorded length, possibly negative) to the counter and
moves the previous-length anchor; from a previous length of 100, two ticks
seeing lengths 140 then 130 raise the counter by exactly 30. -/
theorem keystroke_net_delta (s : State) (c : Nat) (rc okc r1 ok1 r2 ok2 : Bool)
    (h : s.previousCharCount = 100) :
    ((trackKeystrokes s (some c) rc okc).keystrokeCount =
        s.keystrokeCount + ((c : Int) - (s.previousCharCount : Int)) ∧
      (trackKeystrokes s (some c) rc okc).previousCharCount = c) ∧
    (trackKeystrokes (trackKeystrokes s (some 140) r1 ok1)
        (some 130) r2 ok2).keystrokeCount = s.keystrokeCount + 30 := by
  refine ⟨⟨rfl, rfl⟩, ?_⟩
  simp [trackKeystrokes, updateData, h]
  omega

/-- Witness for C7 on a concrete state with previous length 100. -/
theorem keystroke_net_delta_witness :
    ({ initialState with previousCharCount := 100 } : State).previousCharCount = 100 ∧
    (((trackKeystrokes { initialState with previousCharCount := 100 }
          (some 120) true true).keystrokeCount =
        ({ initialState with previousCharCount := 100 } : State).keystrokeCount +
          (((120 : Nat) : Int) -
            (({ initialState with previousCharCount := 100 } : State).previousCharCount : Int)) ∧
      (trackKeystrokes { initialState with previousCharCount := 100 }
          (some 120) true true).previousCharCount = 120) ∧
      (trackKeystrokes (trackKeystrokes { initialState with previousCharCount := 100 }
          (some 140) true true) (some 130) true true).keystrokeCount =
        ({ initialState with previousCharCount := 100 } : State).keystrokeCount + 30) :=
  ⟨rfl, keystroke_net_delta { initialState with previousCharCount := 100 }
    120 true true true true true true rfl⟩

/-- Claim C8 counterexample: with end 1000 ms before start, the code
produces the malformed negative string "-1:-1:-1" rather than "00:00:00"
or an invalid-input signal. -/
theorem negative_duration_malformed :
    (calculateDuration initialState 1000 0).totalDuration = "-1:-1:-1" ∧
    ¬ (calculateDuration initialState 1000 0).totalDuration = "00:00:00" := by
  constructor <;> decide

/-- Claim C8 (amended): for end before start, `calculateDuration` neither
clamps to a zero duration nor flags the input: it applies the same floor
and remainder arithmetic to the negative difference, producing strings
with negative components; every difference of -1000 ms yields "-1:-1:-1". -/
theorem negative_duration_amended (s : State) (a b : Int) (h : b - a = -1000) :
    (calculateDuration s a b).totalDuration = "-1:-1:-1" := by
  show fmtDuration (b - a) = "-1:-1:-1"
  rw [h]
  decide

/-- Witness for the amended C8 at start 1000 and end 0. -/
theorem negative_duration_amended_witness :
    (0 : Int) - 1000 = -1000 ∧
    (calculateDuration initialState 1000 0).totalDuration = "-1:-1:-1" :=
  ⟨by decide, negative_duration_amended initialState 1000 0 (by decide)⟩

/-- Claim C9: persistence failures stay local: a missing file reads as the
empty heartbeat list, a caught read failure on any file reads as the empty
list, a failed write leaves the file as it was, the in-memory session
fields after start or stop do not depend on the read or write outcome,
and the transitions always complete in memory. -/
theorem persistence_failures_local (s : State) (now : Int) (r1 ok1 r2 ok2 rOk : Bool)
    (d : TrackingData) (f : Option TrackingData) :
    readHeartbeats rOk none = [] ∧
    readHeartbeats false f = [] ∧
    writeDataFile false f d = f ∧
    memView (startTrackingTime s now r1 ok1) = memView (startTrackingTime s now r2 ok2) ∧
    memView (stopTrackingTime s now r1 ok1) = memView (stopTrackingTime s now r2 ok2) ∧
    (startTrackingTime { s with isOpen := false } now r1 ok1).isOpen = true ∧
    (stopTrackingTime { s with isOpen := true } now r1 ok1).isOpen = false := by
  refine ⟨rfl, ?_, rfl, ?_, ?_, ?_, ?_⟩
  · cases f <;> simp [readHeartbeats]
  · by_cases ho : s.isOpen <;>
      simp [startTrackingTime, updateData, memView, ho]
  · by_cases ho : s.isOpen <;>
      simp [stopTrackingTime, calculateDuration, updateData, memView, ho]
  · simp [startTrackingTime, updateData]
  · simp [stopTrackingTime, calculateDuration, updateData]

/-- Claim C10: `sendHeartbeat` performs no `isOpen` check: in any state with
`isOpen = false` and an active editor, a heartbeat carrying the current
`keystrokeCount` is still appended, and the persisted document still
records the stale closed-session fields. -/
theorem heartbeat_ignores_session_state (s : State) (e : EditorInfo) (ts : Int)
    (tasks : List TaskInfo) (dbg : Bool) (h : s.isOpen = false) :
    ∃ hb : Heartbeat,
      storedHeartbeats (sendHeartbeat s (some e) ts tasks dbg true true) =
        storedHeartbeats s ++ [hb] ∧
      hb.keystrokeCount = s.keystrokeCount ∧ hb.timestamp = ts ∧
      (sendHeartbeat s (some e) ts tasks dbg true true).file =
        some (TrackingData.mk false s.editTime s.totalDuration s.keystrokeCount
          (storedHeartbeats s ++ [hb])) := by
  refine ⟨Heartbeat.mk ts e.filePath e.cursorLine e.cursorCharacter
    (tasks.any (fun t => t.isBackground || t.hasExecution))
    (tasks.any (fun t =>
      jsIncludes t.name.toLower "compile" || jsIncludes t.name.toLower "build"))
    dbg s.keystrokeCount, ?_, rfl, rfl, ?_⟩
  · simp [sendHeartbeat, storedHeartbeats_updateDataWithHeartbeat]
  · cases hf : s.file <;>
      simp [sendHeartbeat, updateDataWithHeartbeat, writeDataFile,
        storedHeartbeats, readHeartbeats, h, hf]

/-- Witness for C10 on the closed initial state with an active editor. -/
theorem heartbeat_ignores_session_state_witness :
    initialState.isOpen = false ∧
    (∃ hb : Heartbeat,
      storedHeartbeats (sendHeartbeat initialState
          (some (EditorInfo.mk "a.ts" 1 2)) 5 [] false true true) =
        storedHeartbeats initialState ++ [hb] ∧
      hb.keystrokeCount = initialState.keystrokeCount ∧ hb.timestamp = 5 ∧
      (sendHeartbeat initialState
          (some (EditorInfo.mk "a.ts" 1 2)) 5 [] false true true).file =
        some (TrackingData.mk false initialState.editTime initialState.totalDuration
          initialState.keystrokeCount (storedHeartbeats initialState ++ [hb]))) :=
  ⟨rfl, heartbeat_ignores_session_state initialState
    (EditorInfo.mk "a.ts" 1 2) 5 [] false rfl⟩
